import Mathlib

/-!
Verification of the zerepy-discord reply agent.

The development shallowly embeds the three source files:
  - src/agent.py            (DiscordAgent: watermark, filter, processing pass)
  - src/connections/postgres.py (DatabaseHandler: dedup ledger, similarity search)
  - src/connections/twitter_connection.py (TwitterConnection: action registry)

External effects (Discord fetch, LLM call, network, SQL connection) are
parameters of the embedded functions; the control flow, comparisons and
data transformations are translated from the Python source.
-/

namespace ZerepyDiscord

/-! ## Python string primitives

Python compares strings lexicographically by code point, and the agent
compares Discord message ids with `>` on strings
(`msg_id > self.last_processed_message_id` in agent.py line 173).
`pyStrLt` is that comparison.  `strLower` models `str.lower` (the source
only lowercases ASCII tokens) and `strContains` models the Python `in`
substring test.
-/

def pyCharLt (a b : Char) : Bool := decide (a.toNat < b.toNat)

def pyStrLtAux : List Char → List Char → Bool
  | _, [] => false
  | [], _ :: _ => true
  | a :: as, b :: bs =>
      if pyCharLt a b then true
      else if pyCharLt b a then false
      else pyStrLtAux as bs

def pyStrLt (a b : String) : Bool := pyStrLtAux a.data b.data

def strLower (s : String) : String := String.mk (s.data.map Char.toLower)

def strContains (s pat : String) : Bool :=
  (List.range (s.data.length + 1)).any (fun i => pat.data.isPrefixOf (s.data.drop i))

/-! ## Messages

A fetched Discord message as used by `process_new_messages`:
`msg['id']`, `msg.get('message', '')`, `msg.get('author', '')`.
-/

structure Message where
  id : String
  message : String
  author : String
deriving DecidableEq, Repr

/-! ## DatabaseHandler (src/connections/postgres.py)

The `message_tracking` table has `PRIMARY KEY (channel_id, message_id)`;
it is modelled as the list of its key pairs.
-/

inductive DbErr where
  | uniqueViolation
deriving DecidableEq, Repr

abbrev Store := List (String × String)

/-- `get_replied_messages`: `SELECT EXISTS(SELECT 1 FROM message_tracking
WHERE channel_id = %s AND message_id = %s)`. -/
def get_replied_messages (store : Store) (channel_id message_id : String) : Bool :=
  decide ((channel_id, message_id) ∈ store)

/-- `add_replied_message`: a plain `INSERT INTO message_tracking (channel_id,
message_id) VALUES (%s, %s)`.  Because the table has
`PRIMARY KEY (channel_id, message_id)`, inserting an existing key raises a
uniqueness violation; otherwise the row is added. -/
def add_replied_message (store : Store) (channel_id message_id : String) :
    Except DbErr Store :=
  if (channel_id, message_id) ∈ store then .error .uniqueViolation
  else .ok ((channel_id, message_id) :: store)

/-- `get_similar_content`: the whole embedding-plus-similarity-search body is
wrapped in `try/except`; `retrieve` stands for that body (OpenAI embedding of
the query followed by the `code_embeddings` nearest-neighbour query, rows
rendered to text), and any raised error is turned into `[]`. -/
def get_similar_content (retrieve : String → Except String (List String))
    (query : String) : List String :=
  match retrieve query with
  | .ok rows => rows
  | .error _ => []

/-! ## DiscordAgent (src/agent.py) -/

/-- The fixed task prompt built by `_generate_reply` around the original
message text. -/
def reply_prompt (name original : String) : String :=
  "Generate a reply to this message: \x27" ++ original ++ "\x27. You are " ++
  name ++
  ", an agent with technical expertise, so your responses may include code snippets or technical explanations based on the query and your context. Discord chats use markdown, so you can take advantage of creating rich text responses that include code blocks, lists, and more. Due to limitations in the Discord response length, your <think></think> logs together with your response will need to be 2000 or fewer in length."

/-- The `context` string of `_generate_reply`: header plus one bulleted line
per retrieved row. -/
def context_block (similar : List String) : String :=
  "\nRelevant context:\n" ++ String.join (similar.map (fun c => "- " ++ c ++ "\n"))

/-- `_generate_reply`, up to the `generate-text` call: the `(prompt,
system_prompt)` pair handed to the model provider.  The system prompt is the
bio lines joined with newlines; the context block is appended only when
`get_similar_content` returned a non-empty list. -/
def generate_reply_prompts (name : String) (bio : List String)
    (retrieve : String → Except String (List String)) (original : String) :
    String × String :=
  let prompt := reply_prompt name original
  let system_prompt := String.intercalate "\n" bio
  let similar := get_similar_content retrieve original
  if similar.isEmpty then (prompt, system_prompt)
  else (prompt, system_prompt ++ "\n" ++ "This is relevant context:\n" ++
        context_block similar)

/-- `read_messages`: performs the `read-messages` action and returns
`messages if messages else []`, with any raised error caught and turned into
`[]`.  `fetch` is the outcome of the action: an error, `None`, or a list. -/
def read_messages (fetch : Except String (Option (List Message))) : List Message :=
  match fetch with
  | .error _ => []
  | .ok none => []
  | .ok (some msgs) => if msgs.isEmpty then [] else msgs

/-- `_get_latest_message_id`: the id of the first fetched message, `None`
when the fetch produced nothing (errors are caught and yield `None`). -/
def get_latest_message_id (fetch : Except String (Option (List Message))) :
    Option String :=
  match read_messages fetch with
  | [] => none
  | m :: _ => some m.id

/-- The `__init__` watermark setup: `last_processed_message_id` is
`_get_latest_message_id()`, replaced by the default `"0"` when that value is
falsy (`None` or the empty string). -/
def init_watermark (fetch : Except String (Option (List Message))) : String :=
  match get_latest_message_id fetch with
  | none => "0"
  | some s => if s = "" then "0" else s

/-- The skip condition of `process_new_messages` (agent.py lines 165-168):
`'APP' in author or 'zerecall' in author.lower() or '@zerecall' in
msg_content.lower() or any(ref in msg_content.lower() for ref in
['@zerecall', '<@zerecall'])`. -/
def isBotRelated (m : Message) : Bool :=
  strContains m.author "APP" ||
  strContains (strLower m.author) "zerecall" ||
  strContains (strLower m.message) "@zerecall" ||
  (strContains (strLower m.message) "@zerecall" ||
   strContains (strLower m.message) "<@zerecall")

/-- The first loop of `process_new_messages`: iterate over `reversed(messages)`
and keep each message that is not bot-related and has `msg_id >
last_processed_message_id`. -/
def filterNew (watermark : String) (messages : List Message) : List Message :=
  messages.reverse.filter (fun m => !isBotRelated m && pyStrLt watermark m.id)

/-- The mutable state read and written by one processing pass, plus the ids
for which `reply_to_message` was invoked, in invocation order. -/
structure PassResult where
  watermark : String
  store : Store
  replies : List String
deriving DecidableEq, Repr

/-- One iteration of the second loop of `process_new_messages`: skip when the
ledger already has the id; otherwise attempt the reply (`replyOk` is the
boolean outcome of `reply_to_message`, which catches its own exceptions); on
success record the id and advance the watermark to it, on failure leave the
state unchanged.  The `.error` branch of `add_replied_message` is unreachable
here because the ledger was checked just above. -/
def processStep (replyOk : Message → Bool) (channel_id : String)
    (r : PassResult) (m : Message) : PassResult :=
  if get_replied_messages r.store channel_id m.id then r
  else
    let r2 : PassResult := { r with replies := r.replies ++ [m.id] }
    if replyOk m then
      match add_replied_message r2.store channel_id m.id with
      | .ok store2 => { watermark := m.id, store := store2, replies := r2.replies }
      | .error _ => r2
    else r2

/-- `process_new_messages`: return unchanged when the watermark is falsy,
otherwise build `new_messages` by the filter pass and fold the reply loop
over it. -/
def process_new_messages (replyOk : Message → Bool) (channel_id : String)
    (watermark : String) (store : Store) (messages : List Message) : PassResult :=
  if watermark = "" then ⟨watermark, store, []⟩
  else (filterNew watermark messages).foldl (processStep replyOk channel_id)
        ⟨watermark, store, []⟩

/-! ## TwitterConnection (src/connections/twitter_connection.py)

Handler arguments arrive as a Python kwargs dict of strings and ints; the
declared schemas in `self.actions` use the primitive type names `"str"` and
`"int"`.  Requests issued through `_make_request` are recorded so that
"performs no external call" is a statement about the request list; `net`
abstracts the HTTP layer (its result is the parsed JSON on the expected
status, or a raised `TwitterAPIError`).
-/

inductive PyVal where
  | pyStr : String → PyVal
  | pyInt : Int → PyVal
deriving DecidableEq, Repr

def typeOfVal : PyVal → String
  | .pyStr _ => "str"
  | .pyInt _ => "int"

inductive Json where
  | jStr : String → Json
  | jInt : Int → Json
  | jArr : List Json → Json
  | jObj : List (String × Json) → Json
deriving BEq, Repr

def pyToJson : PyVal → Json
  | .pyStr s => .jStr s
  | .pyInt n => .jInt n

inductive TwErr where
  | valueError : String → TwErr
  | typeError : String → TwErr
  | connectionError : String → TwErr
  | configurationError : String → TwErr
  | apiError : String → TwErr
deriving DecidableEq, Repr

structure Request where
  method : String
  endpoint : String
  params : List (String × Json)
  jsonBody : Option Json
deriving BEq, Repr

/-- The environment a handler runs in: the credentials visible through
`_get_credentials` (`none` models missing environment variables, which make
it raise `TwitterConfigurationError`; only `TWITTER_USER_ID` is consulted by
the embedded handlers) and the network as seen through `_make_request`. -/
structure TwEnv where
  user_id : Option String
  net : Request → Except TwErr Json

def tw_get_credentials (env : TwEnv) : Except TwErr String :=
  match env.user_id with
  | none => .error (.configurationError "Missing Twitter credentials")
  | some uid => .ok uid

/-- `_validate_tweet_text`: empty text and text over 280 characters each
raise `ValueError`; anything else passes. -/
def validate_tweet_text (text : String) (context : String) : Except TwErr Unit :=
  if text = "" then .error (.valueError (context ++ " text cannot be empty"))
  else if 280 < text.length then
    .error (.valueError (context ++ " exceeds 280 character limit"))
  else .ok ()

/-- The outcome of one handler invocation: the requests it issued through
`_make_request`, in order, and its return value or raised error. -/
abbrev TwOutcome := List Request × Except TwErr Json

/-- `post_tweet`: validate the text, then `POST tweets` with the text
unchanged in the body. -/
def post_tweet (env : TwEnv) (message : String) : TwOutcome :=
  match validate_tweet_text message "Tweet" with
  | .error e => ([], .error e)
  | .ok _ =>
      let req : Request :=
        { method := "post", endpoint := "tweets", params := [],
          jsonBody := some (Json.jObj [("text", Json.jStr message)]) }
      ([req], env.net req)

/-- `reply_to_tweet`: validate the text (context `"Reply"`), then
`POST tweets` with the text and the reply reference. -/
def reply_to_tweet (env : TwEnv) (tweet_id : PyVal) (message : String) : TwOutcome :=
  match validate_tweet_text message "Reply" with
  | .error e => ([], .error e)
  | .ok _ =>
      let req : Request :=
        { method := "post", endpoint := "tweets", params := [],
          jsonBody := some (Json.jObj
            [("text", Json.jStr message),
             ("reply", Json.jObj [("in_reply_to_tweet_id", pyToJson tweet_id)])]) }
      ([req], env.net req)

/-- `like_tweet`: read credentials, then `POST users/{id}/likes` with the
given tweet id, whatever its type. -/
def like_tweet (env : TwEnv) (tweet_id : PyVal) : TwOutcome :=
  match tw_get_credentials env with
  | .error e => ([], .error e)
  | .ok uid =>
      let req : Request :=
        { method := "post", endpoint := "users/" ++ uid ++ "/likes", params := [],
          jsonBody := some (Json.jObj [("tweet_id", pyToJson tweet_id)]) }
      ([req], env.net req)

def jsonField (j : Json) (key : String) (dflt : Json) : Json :=
  match j with
  | .jObj kvs => ((kvs.find? (fun kv => kv.1 = key)).map Prod.snd).getD dflt
  | _ => dflt

/-- `get_latest_tweets`: read credentials, `GET users/{id}/tweets` with
`max_results = min(count, 100)`, return `response.get("data", [])`.  A
non-int `count` makes `min(count, 100)` raise `TypeError` before any
request. -/
def get_latest_tweets (env : TwEnv) (count : PyVal) : TwOutcome :=
  match tw_get_credentials env with
  | .error e => ([], .error e)
  | .ok uid =>
      match count with
      | .pyStr _ =>
          ([], .error (.typeError "min is not supported between str and int"))
      | .pyInt n =>
          let req : Request :=
            { method := "get", endpoint := "users/" ++ uid ++ "/tweets",
              params := [("tweet.fields", Json.jStr "created_at,public_metrics,text"),
                         ("max_results", Json.jInt (min n 100)),
                         ("exclude", Json.jStr "retweets,replies")],
              jsonBody := none }
          match env.net req with
          | .error e => ([req], .error e)
          | .ok resp => ([req], .ok (jsonField resp "data" (Json.jArr [])))

/-- `read_timeline`: read credentials, `GET .../timelines/reverse_chronological`
with `max_results = count` (any type is accepted into the params dict),
return `response.get("data", [])`.  The per-tweet author enrichment of the
returned list is not modelled; no claim depends on the returned value. -/
def read_timeline (env : TwEnv) (count : PyVal) : TwOutcome :=
  match tw_get_credentials env with
  | .error e => ([], .error e)
  | .ok uid =>
      let req : Request :=
        { method := "get",
          endpoint := "users/" ++ uid ++ "/timelines/reverse_chronological",
          params := [("tweet.fields", Json.jStr "created_at,author_id,attachments"),
                     ("expansions", Json.jStr "author_id"),
                     ("user.fields", Json.jStr "name,username"),
                     ("max_results", pyToJson count)],
          jsonBody := none }
      match env.net req with
      | .error e => ([req], .error e)
      | .ok resp => ([req], .ok (jsonField resp "data" (Json.jArr [])))

/-! Keyword-argument binding.  Each handler has the signature
`def handler(self, required..., **kwargs)`: a missing required keyword makes
the call itself raise `TypeError` before the handler body runs, extra
keywords are absorbed by `**kwargs`, and no type is checked at binding
time. -/

def lookupKw (kwargs : List (String × PyVal)) (key : String) : Option PyVal :=
  (kwargs.find? (fun kv => kv.1 = key)).map Prod.snd

def call_post_tweet (env : TwEnv) (kwargs : List (String × PyVal)) : TwOutcome :=
  match lookupKw kwargs "message" with
  | none => ([], .error (.typeError "post_tweet missing required argument message"))
  | some (.pyStr s) => post_tweet env s
  | some (.pyInt n) =>
      if n = 0 then ([], .error (.valueError "Tweet text cannot be empty"))
      else ([], .error (.typeError "object of type int has no len"))

def call_reply_to_tweet (env : TwEnv) (kwargs : List (String × PyVal)) : TwOutcome :=
  match lookupKw kwargs "tweet_id" with
  | none => ([], .error (.typeError "reply_to_tweet missing required argument tweet_id"))
  | some tid =>
      match lookupKw kwargs "message" with
      | none => ([], .error (.typeError "reply_to_tweet missing required argument message"))
      | some (.pyStr s) => reply_to_tweet env tid s
      | some (.pyInt n) =>
          if n = 0 then ([], .error (.valueError "Reply text cannot be empty"))
          else ([], .error (.typeError "object of type int has no len"))

def call_like_tweet (env : TwEnv) (kwargs : List (String × PyVal)) : TwOutcome :=
  match lookupKw kwargs "tweet_id" with
  | none => ([], .error (.typeError "like_tweet missing required argument tweet_id"))
  | some tid => like_tweet env tid

def call_get_latest_tweets (env : TwEnv) (kwargs : List (String × PyVal)) : TwOutcome :=
  match lookupKw kwargs "username" with
  | none => ([], .error (.typeError "get_latest_tweets missing required argument username"))
  | some _ => get_latest_tweets env ((lookupKw kwargs "count").getD (.pyInt 10))

def call_read_timeline (env : TwEnv) (kwargs : List (String × PyVal)) : TwOutcome :=
  read_timeline env ((lookupKw kwargs "count").getD (.pyInt 10))

/-- The `"args"` schemas declared in `self.actions` in `__init__`; `none`
for an undeclared action name. -/
def tw_action_args (action_name : String) : Option (List (String × String)) :=
  if action_name = "get-latest-tweets" then some [("username", "str"), ("count", "int")]
  else if action_name = "post-tweet" then some [("message", "str")]
  else if action_name = "read-timeline" then some [("count", "int")]
  else if action_name = "like-tweet" then some [("tweet_id", "str")]
  else if action_name = "reply-to-tweet" then some [("tweet_id", "str"), ("message", "str")]
  else none

/-- `perform_action`: when the name is a key of `self.actions`, call the
bound handler on the kwargs; otherwise raise
`TwitterConnectionError("Unknown action: ...")`.  No argument validation
happens here. -/
def tw_perform_action (env : TwEnv) (action_name : String)
    (kwargs : List (String × PyVal)) : TwOutcome :=
  if action_name = "get-latest-tweets" then call_get_latest_tweets env kwargs
  else if action_name = "post-tweet" then call_post_tweet env kwargs
  else if action_name = "read-timeline" then call_read_timeline env kwargs
  else if action_name = "like-tweet" then call_like_tweet env kwargs
  else if action_name = "reply-to-tweet" then call_reply_to_tweet env kwargs
  else ([], .error (.connectionError ("Unknown action: " ++ action_name)))

/-- Schema satisfaction in the sense of the specification: every declared
field is present and has the declared primitive type.  (Written from the
spec for comparison; `tw_perform_action` itself never consults it.) -/
def args_satisfy_schema (schema : List (String × String))
    (kwargs : List (String × PyVal)) : Bool :=
  schema.all (fun f =>
    match lookupKw kwargs f.1 with
    | some v => typeOfVal v = f.2
    | none => false)

/-! ## Specification-side definitions

`spec_self_mention` renders the filter the specification describes, for
comparison with the implemented `isBotRelated`: a case-insensitive substring
match of the handle and its at-prefixed and reply-reference forms over both
the author and the body.
-/

def mention_tokens : List String := ["zerecall", "@zerecall", "<@zerecall"]

def spec_self_mention (m : Message) : Bool :=
  mention_tokens.any (fun t =>
    strContains (strLower m.author) t || strContains (strLower m.message) t)

/-! ## Concrete inputs used by witnesses and counterexamples -/

def dm5 : Message := ⟨"5", "hello five", "alice"⟩

def dm4 : Message := ⟨"4", "hello four", "bob"⟩

def dm3 : Message := ⟨"3", "hello three", "carol"⟩

/-- A newest-first fetch result. -/
def demoMsgs : List Message := [dm5, dm4, dm3]

/-- The fetch result of the ordering scenario in the specification: ids
`[5, 3, 4]`. -/
def demoMsgs2 : List Message := [dm5, dm3, dm4]

/-- A reply outcome where only the send for message id `"3"` fails. -/
def ro0 : Message → Bool := fun m => !(m.id == "3")

/-- A message whose body contains the bare handle without an at sign. -/
def m6 : Message := ⟨"9", "zerecall wrote this", "dave"⟩

/-- A configured Twitter environment whose network always answers. -/
def demoEnv : TwEnv := ⟨some "42", fun _ => .ok (Json.jObj [])⟩

/-- A 281-character tweet text. -/
def longText : String := String.mk (List.replicate 281 'a')

/-! ## Helper lemmas -/

lemma add_replied_message_of_not_mem {store : Store} {ch mid : String}
    (h : (ch, mid) ∉ store) :
    add_replied_message store ch mid = .ok ((ch, mid) :: store) := by
  unfold add_replied_message
  rw [if_neg h]

/-- `processStep` with the unreachable ledger-error branch resolved. -/
lemma processStep_eq (ro : Message → Bool) (ch : String) (r : PassResult) (m : Message) :
    processStep ro ch r m =
      if get_replied_messages r.store ch m.id then r
      else if ro m then
        { watermark := m.id, store := (ch, m.id) :: r.store,
          replies := r.replies ++ [m.id] }
      else { r with replies := r.replies ++ [m.id] } := by
  unfold processStep
  by_cases hg : get_replied_messages r.store ch m.id = true
  · rw [if_pos hg, if_pos hg]
  · rw [if_neg hg, if_neg hg]
    have hnm : (ch, m.id) ∉ r.store := by
      unfold get_replied_messages at hg
      exact of_decide_eq_false (Bool.of_not_eq_true hg)
    by_cases hro : ro m = true
    · rw [if_pos hro, if_pos hro]
      simp only [add_replied_message_of_not_mem hnm]
    · rw [if_neg hro, if_neg hro]

lemma mem_filterNew {w : String} {msgs : List Message} {m : Message}
    (h : m ∈ filterNew w msgs) :
    isBotRelated m = false ∧ pyStrLt w m.id = true ∧ m ∈ msgs := by
  unfold filterNew at h
  rw [List.mem_filter] at h
  obtain ⟨hmem, hp⟩ := h
  rw [List.mem_reverse] at hmem
  rw [Bool.and_eq_true] at hp
  obtain ⟨h1, h2⟩ := hp
  rw [Bool.not_eq_true'] at h1
  exact ⟨h1, h2, hmem⟩

/-- A step leaves the watermark alone or moves it to the id of the message
just processed. -/
lemma processStep_watermark (ro : Message → Bool) (ch : String) (r : PassResult) (m : Message) :
    (processStep ro ch r m).watermark = r.watermark ∨
    (processStep ro ch r m).watermark = m.id := by
  rw [processStep_eq]
  by_cases hg : get_replied_messages r.store ch m.id = true
  · rw [if_pos hg]; exact Or.inl rfl
  · rw [if_neg hg]
    by_cases hro : ro m = true
    · rw [if_pos hro]; exact Or.inr rfl
    · rw [if_neg hro]; exact Or.inl rfl

/-- A failed reply never moves the watermark at its own step. -/
lemma processStep_watermark_of_fail (ro : Message → Bool) (ch : String)
    (r : PassResult) (m : Message) (h : ro m = false) :
    (processStep ro ch r m).watermark = r.watermark := by
  rw [processStep_eq]
  by_cases hg : get_replied_messages r.store ch m.id = true
  · rw [if_pos hg]
  · rw [if_neg hg, if_neg (by rw [h]; exact Bool.false_ne_true)]

lemma foldl_watermark_inv (ro : Message → Bool) (ch : String) (w : String) :
    ∀ (cands : List Message) (r : PassResult),
      (r.watermark = w ∨ pyStrLt w r.watermark = true) →
      (∀ m ∈ cands, pyStrLt w m.id = true) →
      ((cands.foldl (processStep ro ch) r).watermark = w ∨
        pyStrLt w (cands.foldl (processStep ro ch) r).watermark = true) := by
  intro cands
  induction cands with
  | nil => intro r h _; exact h
  | cons m ms ih =>
      intro r h hc
      rw [List.foldl_cons]
      apply ih
      · rcases processStep_watermark ro ch r m with he | he
        · rw [he]; exact h
        · rw [he]; exact Or.inr (hc m (List.mem_cons_self m ms))
      · intro x hx; exact hc x (List.mem_cons_of_mem m hx)

/-- A key already present in the ledger stays present, and its id is never
appended to the attempted replies of a step. -/
lemma processStep_preserves (ro : Message → Bool) (ch mid : String)
    (r : PassResult) (m : Message)
    (h1 : (ch, mid) ∈ r.store) (h2 : mid ∉ r.replies) :
    (ch, mid) ∈ (processStep ro ch r m).store ∧
    mid ∉ (processStep ro ch r m).replies := by
  rw [processStep_eq]
  by_cases hg : get_replied_messages r.store ch m.id = true
  · rw [if_pos hg]; exact ⟨h1, h2⟩
  · have hnm : (ch, m.id) ∉ r.store := by
      unfold get_replied_messages at hg
      exact of_decide_eq_false (Bool.of_not_eq_true hg)
    have hid : m.id ≠ mid := fun he => hnm (he ▸ h1)
    have hrep : mid ∉ r.replies ++ [m.id] := by
      rw [List.mem_append]
      rintro (hh | hh)
      · exact h2 hh
      · exact hid (List.mem_singleton.mp hh).symm
    rw [if_neg hg]
    by_cases hro : ro m = true
    · rw [if_pos hro]
      exact ⟨List.mem_cons_of_mem _ h1, hrep⟩
    · rw [if_neg hro]
      exact ⟨h1, hrep⟩

lemma foldl_dedup (ro : Message → Bool) (ch mid : String) :
    ∀ (cands : List Message) (r : PassResult),
      (ch, mid) ∈ r.store → mid ∉ r.replies →
      mid ∉ (cands.foldl (processStep ro ch) r).replies := by
  intro cands
  induction cands with
  | nil => intro r _ h2; exact h2
  | cons m ms ih =>
      intro r h1 h2
      rw [List.foldl_cons]
      obtain ⟨h1s, h2s⟩ := processStep_preserves ro ch mid r m h1 h2
      exact ih _ h1s h2s

/-! ## Claim theorems -/

/-- C1, counterexample: with the newest-first fetch `[5, 4, 3]`, watermark
`"0"`, and a reply outcome failing exactly for id `"3"`, the failed message
is a candidate, yet the pass ends with watermark `"5"`, which is at or past
`"3"`, and `"3"` no longer passes the filter on the next tick. -/
theorem c1_counterexample :
    dm3 ∈ filterNew "0" demoMsgs ∧ ro0 dm3 = false ∧
    (process_new_messages ro0 "c" "0" [] demoMsgs).watermark = "5" ∧
    pyStrLt (process_new_messages ro0 "c" "0" [] demoMsgs).watermark dm3.id = false ∧
    dm3 ∉ filterNew (process_new_messages ro0 "c" "0" [] demoMsgs).watermark demoMsgs := by
  decide

/-- C1, amended: across ticks the watermark is non-decreasing — a pass ends
with the initial watermark or a strictly larger candidate id — and a failed
reply never advances the watermark at its own step; the amendment drops the
guarantee that the watermark stays below a failed message id for the rest of
the pass, which `c1_counterexample` refutes. -/
theorem c1_watermark_monotonicity (ro : Message → Bool) (ch w : String)
    (store : Store) (msgs : List Message) :
    ((process_new_messages ro ch w store msgs).watermark = w ∨
      pyStrLt w (process_new_messages ro ch w store msgs).watermark = true) ∧
    (∀ (r : PassResult) (m : Message), ro m = false →
      (processStep ro ch r m).watermark = r.watermark) := by
  constructor
  · unfold process_new_messages
    by_cases hw : w = ""
    · rw [if_pos hw]; exact Or.inl rfl
    · rw [if_neg hw]
      apply foldl_watermark_inv
      · exact Or.inl rfl
      · intro m hm; exact (mem_filterNew hm).2.1
  · intro r m h; exact processStep_watermark_of_fail ro ch r m h

/-- C1, witness: the amended statement at the concrete failing pass. -/
theorem c1_watermark_monotonicity_witness :
    (processStep ro0 "c" ⟨"0", [], []⟩ dm3).watermark = "0" ∧
    ((process_new_messages ro0 "c" "0" [] demoMsgs).watermark = "0" ∨
      pyStrLt "0" (process_new_messages ro0 "c" "0" [] demoMsgs).watermark = true) :=
  ⟨(c1_watermark_monotonicity ro0 "c" "0" [] demoMsgs).2 ⟨"0", [], []⟩ dm3 (by decide),
   (c1_watermark_monotonicity ro0 "c" "0" [] demoMsgs).1⟩

/-- C2, counterexample: inserting an existing key raises a uniqueness
violation instead of being a harmless no-op upsert. -/
theorem c2_counterexample :
    add_replied_message [("c", "1")] "c" "1" = Except.error DbErr.uniqueViolation := by
  rfl

/-- C2, amended: `add_replied_message` is a plain insert into a table keyed
by `(channel_id, message_id)`: on an existing key it raises a uniqueness
violation, on a fresh key it adds the row. -/
theorem c2_plain_insert (store : Store) (ch mid : String) :
    ((ch, mid) ∈ store →
      add_replied_message store ch mid = Except.error DbErr.uniqueViolation) ∧
    ((ch, mid) ∉ store →
      add_replied_message store ch mid = Except.ok ((ch, mid) :: store)) := by
  constructor
  · intro h; unfold add_replied_message; rw [if_pos h]
  · intro h; exact add_replied_message_of_not_mem h

/-- C2, witness: both branches of the amended statement at concrete keys. -/
theorem c2_plain_insert_witness :
    add_replied_message [("c", "1")] "c" "2" = Except.ok [("c", "2"), ("c", "1")] ∧
    add_replied_message [("c", "2")] "c" "2" = Except.error DbErr.uniqueViolation :=
  ⟨(c2_plain_insert [("c", "1")] "c" "2").2 (by decide),
   (c2_plain_insert [("c", "2")] "c" "2").1 (by decide)⟩

/-- C3, counterexample: for fetched ids `[5, 3, 4]` and watermark `"0"` the
reply order is `4, 3, 5`, not the `3, 4, 5` the claim states. -/
theorem c3_counterexample :
    (process_new_messages (fun _ => true) "c" "0" [] demoMsgs2).replies = ["4", "3", "5"] ∧
    (["4", "3", "5"] : List String) ≠ ["3", "4", "5"] := by
  decide

/-- C3, amended: the filter step merely reverses the fetched order, so the
candidates are ascending exactly when the fetch was descending
(newest-first); for the fetched ids `[5, 3, 4]` the candidate order is
`4, 3, 5`. -/
theorem c3_filter_order :
    (∀ (w : String) (msgs : List Message),
        List.Pairwise (fun a b : Message => pyStrLt b.id a.id = true) msgs →
        List.Pairwise (fun a b : Message => pyStrLt a.id b.id = true) (filterNew w msgs)) ∧
    (filterNew "0" demoMsgs2).map Message.id = ["4", "3", "5"] := by
  constructor
  · intro w msgs hp
    unfold filterNew
    apply List.Pairwise.filter
    rw [List.pairwise_reverse]
    exact hp
  · decide

/-- C3, witness: the amended statement at the newest-first fetch
`[5, 4, 3]`. -/
theorem c3_filter_order_witness :
    List.Pairwise (fun a b : Message => pyStrLt a.id b.id = true) (filterNew "0" demoMsgs) :=
  c3_filter_order.1 "0" demoMsgs (by decide)

/-- C4, counterexample: `like-tweet` declares `tweet_id : str`; calling it
through `perform_action` with an `int` violates the declared schema, yet no
`InvalidArguments` failure occurs and the handler performs an external
call. -/
theorem c4_counterexample :
    tw_action_args "like-tweet" = some [("tweet_id", "str")] ∧
    args_satisfy_schema [("tweet_id", "str")] [("tweet_id", PyVal.pyInt 123)] = false ∧
    (tw_perform_action demoEnv "like-tweet" [("tweet_id", PyVal.pyInt 123)]).1.length = 1 := by
  refine ⟨by decide, by decide, rfl⟩

/-- C4, amended: `perform_action` fails with a connection error naming the
unknown action, issuing no request and running no handler, whenever the name
is undeclared; it performs no argument-schema validation, so schema-violating
arguments can reach a handler and produce an external call. -/
theorem c4_perform_action_dispatch :
    (∀ (env : TwEnv) (name : String) (kwargs : List (String × PyVal)),
        tw_action_args name = none →
        tw_perform_action env name kwargs =
          ([], .error (.connectionError ("Unknown action: " ++ name)))) ∧
    (tw_perform_action demoEnv "like-tweet" [("tweet_id", PyVal.pyInt 123)]).1.length = 1 ∧
    args_satisfy_schema [("tweet_id", "str")] [("tweet_id", PyVal.pyInt 123)] = false := by
  refine ⟨?_, rfl, by decide⟩
  intro env name kwargs h
  unfold tw_action_args at h
  unfold tw_perform_action
  split_ifs at h ⊢
  simp_all

/-- C4, witness: the unknown-action branch at a concrete undeclared name. -/
theorem c4_perform_action_dispatch_witness :
    tw_perform_action demoEnv "frobnicate" [] =
      ([], .error (.connectionError ("Unknown action: " ++ "frobnicate"))) :=
  c4_perform_action_dispatch.1 demoEnv "frobnicate" [] (by decide)

/-- C5: a message whose `(channel_id, message_id)` pair is already in the
ledger is never replied to again by a processing pass, whatever the fetched
set, watermark and reply outcomes — replaying a fetched set after its ids
were recorded issues no second reply. -/
theorem c5_dedup_idempotent (ro : Message → Bool) (ch w : String)
    (store : Store) (msgs : List Message) (mid : String)
    (h : (ch, mid) ∈ store) :
    mid ∉ (process_new_messages ro ch w store msgs).replies := by
  unfold process_new_messages
  by_cases hw : w = ""
  · rw [if_pos hw]; exact List.not_mem_nil mid
  · rw [if_neg hw]
    exact foldl_dedup ro ch mid _ _ h (List.not_mem_nil mid)

/-- C5, witness: replaying the demo fetch with id `"3"` recorded never
replies to `"3"` again. -/
theorem c5_dedup_idempotent_witness :
    ("3" : String) ∉ (process_new_messages ro0 "c" "0" [("c", "3")] demoMsgs).replies :=
  c5_dedup_idempotent ro0 "c" "0" [("c", "3")] demoMsgs "3" (by decide)

/-- C6, counterexample: a message whose body contains the bare handle
without an at sign matches the self-mention condition of the claim, has an
id above the watermark, and is still added as a reply candidate. -/
theorem c6_counterexample :
    spec_self_mention m6 = true ∧ pyStrLt "0" m6.id = true ∧
    isBotRelated m6 = false ∧ filterNew "0" [m6] = [m6] := by
  decide

/-- C6, amended: every candidate produced by the filter has an author free
of `APP` and of the handle (case-insensitive), a body free of the
at-prefixed and reply-reference forms (case-insensitive), and an id above
the watermark; the bare handle in the body alone does not exclude a
message. -/
theorem c6_self_filter (w : String) (msgs : List Message) (m : Message)
    (h : m ∈ filterNew w msgs) :
    strContains m.author "APP" = false ∧
    strContains (strLower m.author) "zerecall" = false ∧
    strContains (strLower m.message) "@zerecall" = false ∧
    strContains (strLower m.message) "<@zerecall" = false ∧
    pyStrLt w m.id = true ∧ m ∈ msgs := by
  obtain ⟨hb, hlt, hmem⟩ := mem_filterNew h
  unfold isBotRelated at hb
  simp only [Bool.or_eq_false_iff] at hb
  exact ⟨hb.1.1.1, hb.1.1.2, hb.1.2, hb.2.2, hlt, hmem⟩

/-- C6, witness: the amended statement at a concrete candidate. -/
theorem c6_self_filter_witness :
    strContains dm3.author "APP" = false ∧
    strContains (strLower dm3.author) "zerecall" = false ∧
    strContains (strLower dm3.message) "@zerecall" = false ∧
    strContains (strLower dm3.message) "<@zerecall" = false ∧
    pyStrLt "0" dm3.id = true ∧ dm3 ∈ demoMsgs :=
  c6_self_filter "0" demoMsgs dm3 (by decide)

/-- C7: when the embedding-or-search step raises, `get_similar_content`
returns the empty list, and the prompt pair is built with no context block;
the context block is appended exactly when at least one snippet exists. -/
theorem c7_context_degrades (name : String) (bio : List String)
    (retrieve : String → Except String (List String)) (msg e : String)
    (h : retrieve msg = .error e) :
    get_similar_content retrieve msg = [] ∧
    generate_reply_prompts name bio retrieve msg =
      (reply_prompt name msg, String.intercalate "\n" bio) ∧
    (∀ retr2 : String → Except String (List String),
        get_similar_content retr2 msg ≠ [] →
        generate_reply_prompts name bio retr2 msg =
          (reply_prompt name msg,
            String.intercalate "\n" bio ++ "\n" ++ "This is relevant context:\n" ++
              context_block (get_similar_content retr2 msg))) := by
  have h0 : get_similar_content retrieve msg = [] := by
    unfold get_similar_content; rw [h]
  refine ⟨h0, ?_, ?_⟩
  · unfold generate_reply_prompts
    rw [h0]
    rfl
  · intro retr2 hne
    have hE : (get_similar_content retr2 msg).isEmpty = false := by
      cases hl : get_similar_content retr2 msg with
      | nil => exact absurd hl hne
      | cons a as => rfl
    unfold generate_reply_prompts
    simp [hE]

/-- C7, witness: a failing retriever at concrete inputs. -/
theorem c7_context_degrades_witness :
    get_similar_content (fun _ => Except.error "boom") "hi" = [] ∧
    generate_reply_prompts "zerecall" ["bio1", "bio2"] (fun _ => Except.error "boom") "hi" =
      (reply_prompt "zerecall" "hi", String.intercalate "\n" ["bio1", "bio2"]) :=
  ⟨(c7_context_degrades "zerecall" ["bio1", "bio2"] (fun _ => Except.error "boom")
      "hi" "boom" rfl).1,
   (c7_context_degrades "zerecall" ["bio1", "bio2"] (fun _ => Except.error "boom")
      "hi" "boom" rfl).2.1⟩

/-- C8: `read_messages` turns a raised fetch error, a `None` result, and an
empty result into the empty list, and passes a non-empty result through. -/
theorem c8_read_messages_fail_soft :
    (∀ e : String, read_messages (.error e) = []) ∧
    read_messages (.ok none) = [] ∧
    read_messages (.ok (some [])) = [] ∧
    (∀ (m : Message) (ms : List Message),
        read_messages (.ok (some (m :: ms))) = m :: ms) := by
  refine ⟨fun e => rfl, rfl, rfl, fun m ms => rfl⟩

/-- C9: startup initializes the watermark to `"0"` when the initial fetch
fails or the channel is empty, and otherwise to the id of the first fetched
message, which is the maximal one when the fetch is newest-first. -/
theorem c9_init_watermark :
    (∀ e : String, init_watermark (.error e) = "0") ∧
    init_watermark (.ok none) = "0" ∧
    init_watermark (.ok (some [])) = "0" ∧
    (∀ (m : Message) (ms : List Message),
        List.Pairwise (fun a b : Message => pyStrLt b.id a.id = true) (m :: ms) →
        m.id ≠ "" →
        init_watermark (.ok (some (m :: ms))) = m.id ∧
        ∀ x ∈ m :: ms, x.id = m.id ∨ pyStrLt x.id m.id = true) := by
  refine ⟨fun e => rfl, rfl, rfl, fun m ms hp hne => ⟨?_, ?_⟩⟩
  · unfold init_watermark get_latest_message_id read_messages
    simp [hne]
  · intro x hx
    rcases List.mem_cons.mp hx with hx | hx
    · exact Or.inl (by rw [hx])
    · exact Or.inr ((List.pairwise_cons.mp hp).1 x hx)

/-- C9, witness: the startup watermark on a concrete newest-first fetch, on
a failed fetch, and on an empty channel. -/
theorem c9_init_watermark_witness :
    init_watermark (.ok (some demoMsgs)) = "5" ∧
    (∀ x ∈ demoMsgs, Message.id x = "5" ∨ pyStrLt x.id "5" = true) ∧
    init_watermark (.error "down") = "0" ∧
    init_watermark (.ok (some [])) = "0" :=
  ⟨(c9_init_watermark.2.2.2 dm5 [dm4, dm3] (by decide) (by decide)).1,
   (c9_init_watermark.2.2.2 dm5 [dm4, dm3] (by decide) (by decide)).2,
   c9_init_watermark.1 "down",
   c9_init_watermark.2.2.1⟩

/-- C10: `post_tweet` and `reply_to_tweet` validate the text before any
request: empty text and text over 280 characters raise `ValueError` with no
request issued, and valid text is sent unchanged in exactly one request. -/
theorem c10_tweet_text_validation (env : TwEnv) (tid : PyVal) (msg : String) :
    (msg = "" →
      post_tweet env msg = ([], .error (.valueError "Tweet text cannot be empty")) ∧
      reply_to_tweet env tid msg = ([], .error (.valueError "Reply text cannot be empty"))) ∧
    (msg ≠ "" → 280 < msg.length →
      post_tweet env msg = ([], .error (.valueError "Tweet exceeds 280 character limit")) ∧
      reply_to_tweet env tid msg =
        ([], .error (.valueError "Reply exceeds 280 character limit"))) ∧
    (msg ≠ "" → msg.length ≤ 280 →
      (post_tweet env msg).1 =
        [⟨"post", "tweets", [], some (Json.jObj [("text", Json.jStr msg)])⟩] ∧
      (reply_to_tweet env tid msg).1 =
        [⟨"post", "tweets", [],
          some (Json.jObj [("text", Json.jStr msg),
            ("reply", Json.jObj [("in_reply_to_tweet_id", pyToJson tid)])])⟩]) := by
  refine ⟨?_, ?_, ?_⟩
  · intro h
    subst h
    exact ⟨rfl, rfl⟩
  · intro h1 h2
    unfold post_tweet reply_to_tweet validate_tweet_text
    simp only [if_neg h1, if_pos h2]
    constructor <;> trivial
  · intro h1 h2
    unfold post_tweet reply_to_tweet validate_tweet_text
    simp only [if_neg h1, if_neg (Nat.not_lt.mpr h2)]
    constructor <;> trivial

set_option maxRecDepth 8192 in
/-- C10, witness: the empty, over-limit and valid branches at concrete
texts. -/
theorem c10_tweet_text_validation_witness :
    post_tweet demoEnv "" = ([], .error (.valueError "Tweet text cannot be empty")) ∧
    post_tweet demoEnv longText =
      ([], .error (.valueError "Tweet exceeds 280 character limit")) ∧
    (reply_to_tweet demoEnv (PyVal.pyStr "7") "hi").1 =
      [⟨"post", "tweets", [],
        some (Json.jObj [("text", Json.jStr "hi"),
          ("reply", Json.jObj [("in_reply_to_tweet_id", pyToJson (PyVal.pyStr "7"))])])⟩] :=
  ⟨((c10_tweet_text_validation demoEnv (PyVal.pyStr "7") "").1 rfl).1,
   ((c10_tweet_text_validation demoEnv (PyVal.pyStr "7") longText).2.1
      (by decide) (by decide)).1,
   ((c10_tweet_text_validation demoEnv (PyVal.pyStr "7") "hi").2.2
      (by decide) (by decide)).2⟩

end ZerepyDiscord
